import Mathlib

/-!
Verification of the pinch-to-zoom transform engine in
src/view/com/lightbox/ImageViewing/components/ImageItem/ImageItem.android.tsx.

Numbers are modelled as exact rationals. The device screen (SCREEN in the
source, fixed at startup from the window dimensions) is carried as a parameter,
as are the asynchronously resolved image aspect and native dimensions.
-/

/-- A 2D point or translation delta (focal points, pan/pinch translations). -/
structure Vec2 where
  x : ℚ
  y : ℚ
deriving DecidableEq

/-- Modelled from the spec: the transforms module (../../transforms) is not part
of the provided sources. Per the spec data model, a transform is carried as a
flat 3-tuple (translateX, translateY, scale) denoting the affine map
p to scale * p + (translateX, translateY). -/
structure TransformMatrix where
  translateX : ℚ
  translateY : ℚ
  scale : ℚ
deriving DecidableEq

/-- Modelled from the spec: createTransform returns the neutral transform,
translate (0,0) and scale 1. -/
def createTransform : TransformMatrix := ⟨0, 0, 1⟩

/-- Modelled from the spec: readTransform extracts the scalar components
(translateX, translateY, scale). -/
def readTransform (t : TransformMatrix) : ℚ × ℚ × ℚ :=
  (t.translateX, t.translateY, t.scale)

/-- Modelled from the spec: prependTransform composes two transforms (the matrix
product accumulator * committed), layering an active gesture delta on top of the
last committed state, so that the committed transform applies first and the
accumulated gesture delta applies after it. -/
def prependTransform (t c : TransformMatrix) : TransformMatrix :=
  ⟨t.scale * c.translateX + t.translateX,
   t.scale * c.translateY + t.translateY,
   t.scale * c.scale⟩

/-- Modelled from the spec: prependPan composes a pure translation delta with the
accumulated transform, preserving the documented composition order
(pan, then pinch, then prior-committed, applied right-to-left). -/
def prependPan (t : TransformMatrix) (translation : Vec2) : TransformMatrix :=
  prependTransform t ⟨translation.x, translation.y, 1⟩

/-- Modelled from the spec: prependPinch composes a scale-about-origin operation
plus an extra translation: translate so the origin is at the center, scale,
translate back, then add the pinch translation. As an affine map this is
p to scale * p + ((1 - scale) * origin + translation). -/
def prependPinch (t : TransformMatrix) (scale : ℚ) (origin translation : Vec2) :
    TransformMatrix :=
  prependTransform t
    ⟨(1 - scale) * origin.x + translation.x,
     (1 - scale) * origin.y + translation.y,
     scale⟩

/-- Modelled from the spec: applyRounding snaps the translation components to the
pixel grid to avoid sub-pixel drift accumulating over repeated compositions. The
spec fixes no granularity for snapping the scale; in this exact rational model
the scale is kept unchanged (exact arithmetic has no drift to correct). -/
def applyRounding (t : TransformMatrix) : TransformMatrix :=
  ⟨((round t.translateX : ℤ) : ℚ), ((round t.translateY : ℤ) : ℚ), t.scale⟩

/-- Constant MIN_DOUBLE_TAP_SCALE (ImageItem.android.tsx line 44). -/
def MIN_DOUBLE_TAP_SCALE : ℚ := 2

/-- Constant MAX_ORIGINAL_IMAGE_ZOOM (ImageItem.android.tsx line 45). -/
def MAX_ORIGINAL_IMAGE_ZOOM : ℚ := 2

/-- The fixed viewport rectangle (SCREEN in the source, lines 37-43). -/
structure Screen where
  width : ℚ
  height : ℚ
deriving DecidableEq

/-- Image dimensions (the Dimensions type of the source). -/
structure ImageDims where
  width : ℚ
  height : ℚ
deriving DecidableEq

/-- Per-image configuration: the device screen and the asynchronously resolved
image metadata (imageAspect and imageDimensions from useImageDimensions,
lines 69-72; none while the image metadata is still loading). -/
structure Config where
  screen : Screen
  imageAspect : Option ℚ
  imageDimensions : Option ImageDims
deriving DecidableEq

/-- Embedding of getScaledDimensions (ImageItem.android.tsx lines 363-381). -/
def getScaledDimensions (screen : Screen) (imageAspect scale : ℚ) : ImageDims :=
  if imageAspect > screen.width / screen.height then
    { width := scale * screen.width
      height := scale * screen.width / imageAspect }
  else
    { width := scale * screen.height * imageAspect
      height := scale * screen.height }

/-- Embedding of clampTranslation (ImageItem.android.tsx lines 383-393). -/
def clampTranslation (value scaledSize screenSize : ℚ) : ℚ :=
  let panDistance := max 0 ((scaledSize - screenSize) / 2)
  let clampedValue := min (max (-panDistance) value) panDistance
  clampedValue

/-- Embedding of getExtraTranslationToStayInBounds (lines 123-146). The guard
`if (!imageAspect)` in the source is JS-truthy: it fires when the aspect is
undefined and also when it is 0. -/
def getExtraTranslationToStayInBounds (cfg : Config)
    (candidateTransform : TransformMatrix) : ℚ × ℚ :=
  match cfg.imageAspect with
  | none => (0, 0)
  | some imageAspect =>
    if imageAspect = 0 then (0, 0)
    else
      let (nextTranslateX, nextTranslateY, nextScale) :=
        readTransform candidateTransform
      let scaledDimensions := getScaledDimensions cfg.screen imageAspect nextScale
      let clampedTranslateX :=
        clampTranslation nextTranslateX scaledDimensions.width cfg.screen.width
      let clampedTranslateY :=
        clampTranslation nextTranslateY scaledDimensions.height cfg.screen.height
      let dx := clampedTranslateX - nextTranslateX
      let dy := clampedTranslateY - nextTranslateY
      (dx, dy)

/-- The mutable gesture state of one image viewer instance: the committed
transform plus the transient gesture values (lines 73-77). -/
structure GestureState where
  committedTransform : TransformMatrix
  panTranslation : Vec2
  pinchOrigin : Vec2
  pinchScale : ℚ
  pinchTranslation : Vec2
deriving DecidableEq

/-- The initial state of a freshly shown image (lines 47 and 73-77). -/
def initialState : GestureState :=
  { committedTransform := createTransform
    panTranslation := ⟨0, 0⟩
    pinchOrigin := ⟨0, 0⟩
    pinchScale := 1
    pinchTranslation := ⟨0, 0⟩ }

/-- The maximum committed scale (imageDimensions.width / SCREEN.width) *
MAX_ORIGINAL_IMAGE_ZOOM, as computed in pinch.onChange (lines 164-165) and as
maxScale in doubleTap.onEnd (lines 281-282). -/
def maxCommittedScale (cfg : Config) (dims : ImageDims) : ℚ :=
  dims.width / cfg.screen.width * MAX_ORIGINAL_IMAGE_ZOOM

/-- Embedding of withClampedSpring (lines 395-398): withSpring with overshoot
clamping animates the shared value toward the given target; this discrete model
identifies the committed value with the settled animation target. -/
def withClampedSpring (value : TransformMatrix) : TransformMatrix := value

/-- Embedding of pinch.onStart (lines 149-155); focal is (e.focalX, e.focalY). -/
def pinchOnStart (cfg : Config) (st : GestureState) (focal : Vec2) : GestureState :=
  { st with
      pinchOrigin :=
        ⟨focal.x - cfg.screen.width / 2, focal.y - cfg.screen.height / 2⟩ }

/-- Embedding of pinch.onChange (lines 156-187); escale is e.scale. -/
def pinchOnChange (cfg : Config) (st : GestureState) (escale : ℚ) : GestureState :=
  match cfg.imageDimensions with
  | none => st
  | some imageDimensions =>
    let (_, _, committedScale) := readTransform st.committedTransform
    let minPinchScale := 1 / committedScale
    let maxPinchScale := maxCommittedScale cfg imageDimensions / committedScale
    let nextPinchScale := min (max minPinchScale escale) maxPinchScale
    let t := createTransform
    let t := prependPan t st.panTranslation
    let t := prependPinch t nextPinchScale st.pinchOrigin st.pinchTranslation
    let t := prependTransform t st.committedTransform
    let (dx, dy) := getExtraTranslationToStayInBounds cfg t
    let nextPinchTranslation :=
      if dx ≠ 0 ∨ dy ≠ 0 then
        Vec2.mk (st.pinchTranslation.x + dx) (st.pinchTranslation.y + dy)
      else st.pinchTranslation
    { st with pinchScale := nextPinchScale, pinchTranslation := nextPinchTranslation }

/-- Embedding of pinch.onEnd (lines 188-206). -/
def pinchOnEnd (st : GestureState) : GestureState :=
  let t := createTransform
  let t := prependPinch t st.pinchScale st.pinchOrigin st.pinchTranslation
  let t := prependTransform t st.committedTransform
  let t := applyRounding t
  { st with
      committedTransform := t
      pinchScale := 1
      pinchOrigin := ⟨0, 0⟩
      pinchTranslation := ⟨0, 0⟩ }

/-- Embedding of pan.onChange (lines 212-233); translation is
(e.translationX, e.translationY). -/
def panOnChange (cfg : Config) (st : GestureState) (translation : Vec2) :
    GestureState :=
  match cfg.imageDimensions with
  | none => st
  | some _ =>
    let nextPanTranslation := translation
    let t := createTransform
    let t := prependPan t nextPanTranslation
    let t := prependPinch t st.pinchScale st.pinchOrigin st.pinchTranslation
    let t := prependTransform t st.committedTransform
    let (dx, dy) := getExtraTranslationToStayInBounds cfg t
    { st with
        panTranslation := ⟨nextPanTranslation.x + dx, nextPanTranslation.y + dy⟩ }

/-- Embedding of pan.onEnd (lines 234-245). -/
def panOnEnd (st : GestureState) : GestureState :=
  let t := createTransform
  let t := prependPan t st.panTranslation
  let t := prependTransform t st.committedTransform
  let t := applyRounding t
  { st with committedTransform := t, panTranslation := ⟨0, 0⟩ }

/-- Embedding of singleTap.onEnd (lines 247-256). The second component counts
the runOnJS(onTap) invocations performed by the handler body. -/
def singleTapOnEnd (st : GestureState) : GestureState × Nat :=
  let (_, _, committedScale) := readTransform st.committedTransform
  if committedScale ≠ 1 then
    let t := createTransform
    ({ st with committedTransform := withClampedSpring t }, 1)
  else
    (st, 1)

/-- Embedding of doubleTap.onEnd (lines 258-299); tap is
(e.absoluteX, e.absoluteY). The guard `if (!imageDimensions || !imageAspect)`
is JS-truthy, so an aspect of 0 also returns early. -/
def doubleTapOnEnd (cfg : Config) (st : GestureState) (tap : Vec2) : GestureState :=
  match cfg.imageDimensions, cfg.imageAspect with
  | some imageDimensions, some imageAspect =>
    if imageAspect = 0 then st
    else
      let (_, _, committedScale) := readTransform st.committedTransform
      if committedScale ≠ 1 then
        let t := createTransform
        { st with committedTransform := withClampedSpring t }
      else
        let screenAspect := cfg.screen.width / cfg.screen.height
        let candidateScale :=
          max (max (imageAspect / screenAspect) (screenAspect / imageAspect))
            MIN_DOUBLE_TAP_SCALE
        let maxScale := maxCommittedScale cfg imageDimensions
        let scale := min candidateScale maxScale
        let origin : Vec2 :=
          ⟨tap.x - cfg.screen.width / 2, tap.y - cfg.screen.height / 2⟩
        let candidateTransform := prependPinch createTransform scale origin ⟨0, 0⟩
        let (dx, dy) := getExtraTranslationToStayInBounds cfg candidateTransform
        let finalTransform := prependPinch createTransform scale origin ⟨dx, dy⟩
        { st with committedTransform := withClampedSpring finalTransform }
  | _, _ => st

/-- Embedding of the derivation inside useAnimatedReaction (lines 82-95): the
reactively derived is-zoomed boolean. -/
def isScaledDerivation (st : GestureState) : Bool :=
  if st.pinchScale ≠ 1 then true
  else
    let (_, _, committedScale) := readTransform st.committedTransform
    if committedScale ≠ 1 then true
    else false

/-- Embedding of the reaction callback (lines 96-100): given the previously
derived value (none before the first evaluation) and the stream of derived
values, collect the values for which handleZoom, and hence onZoom, is invoked
(only when the derived value changed). -/
def reactionEmits (prev : Option Bool) : List Bool → List Bool
  | [] => []
  | next :: rest =>
    if some next ≠ prev then next :: reactionEmits (some next) rest
    else reactionEmits (some next) rest

/-- An event consumed by the pinch gesture handlers: a change event carrying
e.scale, or the end of the gesture. -/
inductive PinchEvent where
  | change (scale : ℚ)
  | ended
deriving DecidableEq

/-- Run a sequence of pinch events through the pinch handlers. -/
def runPinchEvents (cfg : Config) (st : GestureState) : List PinchEvent → GestureState
  | [] => st
  | PinchEvent.change s :: rest => runPinchEvents cfg (pinchOnChange cfg st s) rest
  | PinchEvent.ended :: rest => runPinchEvents cfg (pinchOnEnd st) rest

/-- A 1000 x 2000 screen showing an image whose native width (400) is smaller
than half the viewport width, so maxCommittedScale = 4/5 < 1. -/
def smallImageConfig : Config :=
  { screen := ⟨1000, 2000⟩
    imageAspect := some (4 / 3)
    imageDimensions := some ⟨400, 300⟩ }

/-- A 1000 x 2000 screen showing an image whose native width (2000) is large
enough that maxCommittedScale = 4 is at least 1. -/
def largeImageConfig : Config :=
  { screen := ⟨1000, 2000⟩
    imageAspect := some (4 / 3)
    imageDimensions := some ⟨2000, 1500⟩ }

/-- A square 1000 x 1000 screen (screenAspect = 1) showing a wide image with
aspect 2, matching the concrete double-tap scenario of the spec. -/
def squareScreenConfig : Config :=
  { screen := ⟨1000, 1000⟩
    imageAspect := some 2
    imageDimensions := some ⟨5000, 2500⟩ }

/-- A configuration whose image metadata has not resolved yet. -/
def noMetadataConfig : Config :=
  { screen := ⟨1000, 2000⟩
    imageAspect := none
    imageDimensions := none }

/-- A state whose committed transform is zoomed in to scale 2. -/
def zoomedState : GestureState :=
  { initialState with committedTransform := ⟨0, 0, 2⟩ }

/-- The scale-component invariant maintained by the pinch handlers: the
committed scale and the cumulative scale (pinch scale times committed scale)
both stay within [1, M]. -/
def PinchScaleInv (M : ℚ) (st : GestureState) : Prop :=
  1 ≤ st.committedTransform.scale ∧ st.committedTransform.scale ≤ M ∧
  1 ≤ st.pinchScale * st.committedTransform.scale ∧
  st.pinchScale * st.committedTransform.scale ≤ M

lemma pinchOnChange_committedTransform (cfg : Config) (st : GestureState)
    (escale : ℚ) :
    (pinchOnChange cfg st escale).committedTransform = st.committedTransform := by
  unfold pinchOnChange
  cases cfg.imageDimensions <;> rfl

lemma pinchOnChange_pinchScale (cfg : Config) (dims : ImageDims)
    (h : cfg.imageDimensions = some dims) (st : GestureState) (escale : ℚ) :
    (pinchOnChange cfg st escale).pinchScale =
      min (max (1 / st.committedTransform.scale) escale)
        (maxCommittedScale cfg dims / st.committedTransform.scale) := by
  unfold pinchOnChange
  rw [h]
  rfl

lemma pinchOnEnd_committed_scale (st : GestureState) :
    (pinchOnEnd st).committedTransform.scale =
      st.pinchScale * st.committedTransform.scale := by
  simp [pinchOnEnd, applyRounding, prependTransform, prependPinch, createTransform]

lemma pinchOnEnd_pinchScale (st : GestureState) :
    (pinchOnEnd st).pinchScale = 1 := rfl

lemma pinchScaleInv_onChange (cfg : Config) (dims : ImageDims)
    (h : cfg.imageDimensions = some dims)
    (hM : 1 ≤ maxCommittedScale cfg dims)
    (st : GestureState) (escale : ℚ)
    (hinv : PinchScaleInv (maxCommittedScale cfg dims) st) :
    PinchScaleInv (maxCommittedScale cfg dims) (pinchOnChange cfg st escale) := by
  obtain ⟨h1, h2, _, _⟩ := hinv
  have hcs : 0 < st.committedTransform.scale := lt_of_lt_of_le one_pos h1
  have hcsne : st.committedTransform.scale ≠ 0 := ne_of_gt hcs
  have hps := pinchOnChange_pinchScale cfg dims h st escale
  have hct := pinchOnChange_committedTransform cfg st escale
  have hlow : 1 / st.committedTransform.scale ≤
      (pinchOnChange cfg st escale).pinchScale := by
    rw [hps]
    exact le_min (le_max_left _ _) ((div_le_div_iff_of_pos_right hcs).mpr hM)
  have hhigh : (pinchOnChange cfg st escale).pinchScale ≤
      maxCommittedScale cfg dims / st.committedTransform.scale := by
    rw [hps]; exact min_le_right _ _
  refine ⟨by rw [hct]; exact h1, by rw [hct]; exact h2, ?_, ?_⟩
  · rw [hct]
    calc (1 : ℚ) = 1 / st.committedTransform.scale * st.committedTransform.scale := by
          rw [one_div_mul_cancel hcsne]
      _ ≤ _ := mul_le_mul_of_nonneg_right hlow hcs.le
  · rw [hct]
    calc (pinchOnChange cfg st escale).pinchScale * st.committedTransform.scale
        ≤ maxCommittedScale cfg dims / st.committedTransform.scale *
            st.committedTransform.scale := mul_le_mul_of_nonneg_right hhigh hcs.le
      _ = maxCommittedScale cfg dims := div_mul_cancel₀ _ hcsne

lemma pinchScaleInv_onEnd (M : ℚ) (st : GestureState)
    (hinv : PinchScaleInv M st) : PinchScaleInv M (pinchOnEnd st) := by
  obtain ⟨_, _, h3, h4⟩ := hinv
  refine ⟨?_, ?_, ?_, ?_⟩
  · rw [pinchOnEnd_committed_scale]; exact h3
  · rw [pinchOnEnd_committed_scale]; exact h4
  · rw [pinchOnEnd_pinchScale, pinchOnEnd_committed_scale, one_mul]; exact h3
  · rw [pinchOnEnd_pinchScale, pinchOnEnd_committed_scale, one_mul]; exact h4

lemma runPinchEvents_inv (cfg : Config) (dims : ImageDims)
    (h : cfg.imageDimensions = some dims)
    (hM : 1 ≤ maxCommittedScale cfg dims) :
    ∀ (events : List PinchEvent) (st : GestureState),
      PinchScaleInv (maxCommittedScale cfg dims) st →
      PinchScaleInv (maxCommittedScale cfg dims) (runPinchEvents cfg st events) := by
  intro events
  induction events with
  | nil => intro st hinv; exact hinv
  | cons ev rest ih =>
    intro st hinv
    cases ev with
    | change s => exact ih _ (pinchScaleInv_onChange cfg dims h hM st s hinv)
    | ended => exact ih _ (pinchScaleInv_onEnd _ st hinv)

lemma reactionEmits_head_ne (b : Bool) :
    ∀ (l : List Bool) (c : Bool),
      (reactionEmits (some b) l).head? = some c → c ≠ b := by
  intro l
  induction l with
  | nil => intro c hc; simp [reactionEmits] at hc
  | cons a rest ih =>
    intro c hc
    by_cases hab : some a ≠ some b
    · rw [reactionEmits, if_pos hab] at hc
      simp at hc
      subst hc
      simpa using hab
    · rw [reactionEmits, if_neg hab] at hc
      have hab2 : a = b := by simpa using hab
      rw [hab2] at hc
      exact ih c hc

lemma reactionEmits_chain :
    ∀ (l : List Bool) (prev : Option Bool),
      List.Chain' (fun x y => x ≠ y) (reactionEmits prev l) := by
  intro l
  induction l with
  | nil => intro prev; simp [reactionEmits]
  | cons a rest ih =>
    intro prev
    rw [reactionEmits]
    split
    · rw [List.chain'_cons']
      refine ⟨?_, ih (some a)⟩
      intro y hy
      exact (reactionEmits_head_ne a rest y hy).symm
    · exact ih (some a)

/-- C1 counterexample: the claim fails as stated for an image whose native width
is smaller than half the viewport width. On a 1000-wide screen with a 400-wide
image, maxCommittedScale = 4/5 < 1; starting from committed scale 1, a single
pinch change event (even with e.scale = 1) clamps the pinch scale to 4/5, and
the end of the gesture commits a scale of 4/5 < 1. -/
theorem c1_claim_counterexample :
    (runPinchEvents smallImageConfig initialState
        [PinchEvent.change 1, PinchEvent.ended]).committedTransform.scale < 1 := by
  norm_num [runPinchEvents, pinchOnChange, pinchOnEnd, getExtraTranslationToStayInBounds,
    getScaledDimensions, clampTranslation, maxCommittedScale, smallImageConfig,
    initialState, createTransform, prependPan, prependPinch, prependTransform,
    readTransform, applyRounding, MAX_ORIGINAL_IMAGE_ZOOM, min_def, max_def]

/-- C1 (amended): provided the resolution-derived maximum committed scale
(imageDimensions.width / SCREEN.width) * MAX_ORIGINAL_IMAGE_ZOOM is at least 1,
every sequence of pinch onChange/onEnd events starting from a committed scale of
1 (with the transient pinch scale at its neutral value 1) keeps the committed
scale within [1, maxCommittedScale]. -/
theorem c1_committed_scale_bounds (cfg : Config) (dims : ImageDims)
    (hdims : cfg.imageDimensions = some dims)
    (hM : 1 ≤ maxCommittedScale cfg dims)
    (st : GestureState)
    (hcs : st.committedTransform.scale = 1) (hps : st.pinchScale = 1)
    (events : List PinchEvent) :
    1 ≤ (runPinchEvents cfg st events).committedTransform.scale ∧
    (runPinchEvents cfg st events).committedTransform.scale ≤
      maxCommittedScale cfg dims := by
  have hinv : PinchScaleInv (maxCommittedScale cfg dims) st := by
    refine ⟨by rw [hcs], by rw [hcs]; exact hM, ?_, ?_⟩
    · rw [hcs, hps]; norm_num
    · rw [hcs, hps]; simpa using hM
  obtain ⟨ha, hb, _, _⟩ := runPinchEvents_inv cfg dims hdims hM events st hinv
  exact ⟨ha, hb⟩

/-- Witness for C1 (amended) at a concrete configuration: a 2000-wide image on a
1000-wide screen (maxCommittedScale = 4), pinched once with e.scale = 3. -/
theorem c1_committed_scale_bounds_witness :
    1 ≤ (runPinchEvents largeImageConfig initialState
          [PinchEvent.change 3, PinchEvent.ended]).committedTransform.scale ∧
    (runPinchEvents largeImageConfig initialState
          [PinchEvent.change 3, PinchEvent.ended]).committedTransform.scale ≤
      maxCommittedScale largeImageConfig ⟨2000, 1500⟩ :=
  c1_committed_scale_bounds largeImageConfig ⟨2000, 1500⟩ rfl
    (by norm_num [maxCommittedScale, largeImageConfig, MAX_ORIGINAL_IMAGE_ZOOM])
    initialState rfl rfl [PinchEvent.change 3, PinchEvent.ended]

/-- C2 counterexample: at committed scale 1 (the reachable initial state), for a
400-wide image on a 1000-wide screen the clamp bounds of pinch.onChange invert:
minPinchScale = 1 / 1 = 1 exceeds maxPinchScale = (4/5) / 1 = 4/5, refuting the
claim that the bounds never invert even when the image is narrower than the
viewport. -/
theorem c2_bounds_invert_counterexample :
    initialState.committedTransform.scale = 1 ∧
    ¬ (1 / initialState.committedTransform.scale ≤
        maxCommittedScale smallImageConfig ⟨400, 300⟩ /
          initialState.committedTransform.scale) := by
  constructor
  · rfl
  · norm_num [maxCommittedScale, smallImageConfig, initialState, createTransform,
      MAX_ORIGINAL_IMAGE_ZOOM]

/-- C2 (amended): the clamp bounds of pinch.onChange never invert provided the
committed scale is positive and maxCommittedScale is at least 1, i.e. the image
native width is at least SCREEN.width / MAX_ORIGINAL_IMAGE_ZOOM; without that
proviso they invert (see the counterexample). -/
theorem c2_bounds_no_inversion (cfg : Config) (dims : ImageDims)
    (_hdims : cfg.imageDimensions = some dims)
    (hM : 1 ≤ maxCommittedScale cfg dims)
    (committedScale : ℚ) (hcs : 0 < committedScale) :
    1 / committedScale ≤ maxCommittedScale cfg dims / committedScale :=
  (div_le_div_iff_of_pos_right hcs).mpr hM

/-- Witness for C2 (amended) at a concrete configuration. -/
theorem c2_bounds_no_inversion_witness :
    1 / (1 : ℚ) ≤ maxCommittedScale largeImageConfig ⟨2000, 1500⟩ / 1 :=
  c2_bounds_no_inversion largeImageConfig ⟨2000, 1500⟩ rfl
    (by norm_num [maxCommittedScale, largeImageConfig, MAX_ORIGINAL_IMAGE_ZOOM])
    1 one_pos

/-- C3: clampTranslation returns the value unchanged whenever its absolute value
is at most panDistance = max 0 ((scaledSize - screenSize) / 2), and otherwise
returns the nearest bound of [-panDistance, panDistance]; concretely, with
scaledSize = 2000 and screenSize = 1000 the pan distance is 500 and the three
cases of the spec evaluate as stated. -/
theorem c3_clampTranslation_spec (value scaledSize screenSize : ℚ) :
    (|value| ≤ max 0 ((scaledSize - screenSize) / 2) →
      clampTranslation value scaledSize screenSize = value) ∧
    (max 0 ((scaledSize - screenSize) / 2) < value →
      clampTranslation value scaledSize screenSize =
        max 0 ((scaledSize - screenSize) / 2)) ∧
    (value < -(max 0 ((scaledSize - screenSize) / 2)) →
      clampTranslation value scaledSize screenSize =
        -(max 0 ((scaledSize - screenSize) / 2))) ∧
    clampTranslation 800 2000 1000 = 500 ∧
    clampTranslation (-800) 2000 1000 = -500 ∧
    clampTranslation 100 2000 1000 = 100 := by
  have hpd : (0 : ℚ) ≤ max 0 ((scaledSize - screenSize) / 2) := le_max_left 0 _
  refine ⟨?_, ?_, ?_, by norm_num [clampTranslation, min_def, max_def],
    by norm_num [clampTranslation, min_def, max_def],
    by norm_num [clampTranslation, min_def, max_def]⟩
  · intro h
    rw [abs_le] at h
    simp only [clampTranslation]
    rw [max_eq_right h.1, min_eq_left h.2]
  · intro h
    simp only [clampTranslation]
    rw [max_eq_right (le_trans (neg_nonpos.mpr hpd) (le_of_lt (lt_of_le_of_lt hpd h))),
      min_eq_right (le_of_lt h)]
  · intro h
    simp only [clampTranslation]
    rw [max_eq_left (le_of_lt h), min_eq_left (le_trans (neg_nonpos.mpr hpd) hpd)]

/-- Witness for C3 at the concrete input of the spec. -/
theorem c3_clampTranslation_spec_witness :
    |(100 : ℚ)| ≤ max 0 (((2000 : ℚ) - 1000) / 2) ∧
    clampTranslation 100 2000 1000 = 100 :=
  ⟨by norm_num, (c3_clampTranslation_spec 100 2000 1000).1 (by norm_num)⟩

lemma clampTranslation_abs_le (v s S : ℚ) :
    |clampTranslation v s S| ≤ max 0 ((s - S) / 2) := by
  have hpd : (0 : ℚ) ≤ max 0 ((s - S) / 2) := le_max_left 0 _
  rw [abs_le]
  simp only [clampTranslation]
  constructor
  · exact le_min (le_max_left _ _) (le_trans (neg_nonpos.mpr hpd) hpd)
  · exact min_le_right _ _

/-- C4: for a known positive image aspect, getExtraTranslationToStayInBounds
returns exactly the per-axis clamp deltas (clamped minus unclamped translation)
computed from the scaled dimensions at the candidate scale, and adding the delta
back to the candidate translation lands within [-panDistance, panDistance] on
each axis. -/
theorem c4_extraTranslation_spec (cfg : Config) (a : ℚ)
    (ha : cfg.imageAspect = some a) (hapos : 0 < a) (t : TransformMatrix) :
    getExtraTranslationToStayInBounds cfg t =
      (clampTranslation t.translateX (getScaledDimensions cfg.screen a t.scale).width
          cfg.screen.width - t.translateX,
       clampTranslation t.translateY (getScaledDimensions cfg.screen a t.scale).height
          cfg.screen.height - t.translateY) ∧
    |t.translateX + (getExtraTranslationToStayInBounds cfg t).1| ≤
      max 0 (((getScaledDimensions cfg.screen a t.scale).width - cfg.screen.width) / 2) ∧
    |t.translateY + (getExtraTranslationToStayInBounds cfg t).2| ≤
      max 0 (((getScaledDimensions cfg.screen a t.scale).height - cfg.screen.height) / 2) := by
  have heq : getExtraTranslationToStayInBounds cfg t =
      (clampTranslation t.translateX (getScaledDimensions cfg.screen a t.scale).width
          cfg.screen.width - t.translateX,
       clampTranslation t.translateY (getScaledDimensions cfg.screen a t.scale).height
          cfg.screen.height - t.translateY) := by
    unfold getExtraTranslationToStayInBounds
    rw [ha]
    simp only [if_neg hapos.ne', readTransform]
  refine ⟨heq, ?_, ?_⟩
  · rw [heq]
    have : t.translateX +
        (clampTranslation t.translateX (getScaledDimensions cfg.screen a t.scale).width
          cfg.screen.width - t.translateX) =
        clampTranslation t.translateX (getScaledDimensions cfg.screen a t.scale).width
          cfg.screen.width := by ring
    rw [this]
    exact clampTranslation_abs_le _ _ _
  · rw [heq]
    have : t.translateY +
        (clampTranslation t.translateY (getScaledDimensions cfg.screen a t.scale).height
          cfg.screen.height - t.translateY) =
        clampTranslation t.translateY (getScaledDimensions cfg.screen a t.scale).height
          cfg.screen.height := by ring
    rw [this]
    exact clampTranslation_abs_le _ _ _

/-- Witness for C4 at a concrete configuration and candidate transform. -/
theorem c4_extraTranslation_spec_witness :
    getExtraTranslationToStayInBounds largeImageConfig ⟨800, 0, 2⟩ =
      (clampTranslation 800 (getScaledDimensions largeImageConfig.screen (4 / 3) 2).width
          largeImageConfig.screen.width - 800,
       clampTranslation 0 (getScaledDimensions largeImageConfig.screen (4 / 3) 2).height
          largeImageConfig.screen.height - 0) ∧
    |(800 : ℚ) + (getExtraTranslationToStayInBounds largeImageConfig ⟨800, 0, 2⟩).1| ≤
      max 0 (((getScaledDimensions largeImageConfig.screen (4 / 3) 2).width -
        largeImageConfig.screen.width) / 2) ∧
    |(0 : ℚ) + (getExtraTranslationToStayInBounds largeImageConfig ⟨800, 0, 2⟩).2| ≤
      max 0 (((getScaledDimensions largeImageConfig.screen (4 / 3) 2).height -
        largeImageConfig.screen.height) / 2) :=
  c4_extraTranslation_spec largeImageConfig (4 / 3) rfl (by norm_num) ⟨800, 0, 2⟩

/-- C5: when the committed scale is not 1 and the image metadata is known (the
only way a zoomed committed state arises, since the change handlers are inert
without metadata), a completed double tap resets the committed transform to the
identity, whatever the transient gesture state and tap point are. -/
theorem c5_doubleTap_resets_when_zoomed (cfg : Config) (dims : ImageDims) (a : ℚ)
    (hdims : cfg.imageDimensions = some dims) (ha : cfg.imageAspect = some a)
    (hapos : 0 < a) (st : GestureState) (tap : Vec2)
    (hcs : st.committedTransform.scale ≠ 1) :
    (doubleTapOnEnd cfg st tap).committedTransform = createTransform := by
  unfold doubleTapOnEnd
  rw [hdims, ha]
  simp only [if_neg hapos.ne', readTransform]
  rw [if_pos hcs]
  rfl

/-- Witness for C5 at a concrete zoomed state. -/
theorem c5_doubleTap_resets_when_zoomed_witness :
    (doubleTapOnEnd squareScreenConfig zoomedState ⟨500, 500⟩).committedTransform =
      createTransform :=
  c5_doubleTap_resets_when_zoomed squareScreenConfig ⟨5000, 2500⟩ 2 rfl rfl
    (by norm_num) zoomedState ⟨500, 500⟩ (by norm_num [zoomedState, initialState])

/-- C6: on an at-rest image (committed scale 1) with known metadata, a double
tap commits a transform whose scale is min(max(imageAspect/screenAspect,
screenAspect/imageAspect, MIN_DOUBLE_TAP_SCALE), maxCommittedScale); concretely,
for imageAspect 2 on a square screen (screenAspect 1) with a 5000-wide image the
committed scale is exactly 2, the candidate max(2, 1/2, 2) uncapped. -/
theorem c6_doubleTap_target_scale (cfg : Config) (dims : ImageDims) (a : ℚ)
    (hdims : cfg.imageDimensions = some dims) (ha : cfg.imageAspect = some a)
    (hapos : 0 < a) (st : GestureState) (tap : Vec2)
    (hcs : st.committedTransform.scale = 1) :
    (doubleTapOnEnd cfg st tap).committedTransform.scale =
      min
        (max (max (a / (cfg.screen.width / cfg.screen.height))
          ((cfg.screen.width / cfg.screen.height) / a)) MIN_DOUBLE_TAP_SCALE)
        (maxCommittedScale cfg dims) ∧
    (doubleTapOnEnd squareScreenConfig initialState ⟨500, 500⟩).committedTransform.scale
      = 2 := by
  constructor
  · unfold doubleTapOnEnd
    rw [hdims, ha]
    simp only [if_neg hapos.ne', readTransform]
    rw [if_neg (not_not_intro hcs)]
    simp [withClampedSpring, prependPinch, prependTransform, createTransform]
  · norm_num [doubleTapOnEnd, squareScreenConfig, initialState, createTransform,
      readTransform, withClampedSpring, prependPinch, prependTransform,
      getExtraTranslationToStayInBounds, getScaledDimensions, clampTranslation,
      maxCommittedScale, MIN_DOUBLE_TAP_SCALE, MAX_ORIGINAL_IMAGE_ZOOM,
      min_def, max_def]

/-- Witness for C6 at the concrete square-screen configuration. -/
theorem c6_doubleTap_target_scale_witness :
    (doubleTapOnEnd squareScreenConfig initialState ⟨500, 500⟩).committedTransform.scale =
      min
        (max (max ((2 : ℚ) / (squareScreenConfig.screen.width / squareScreenConfig.screen.height))
          ((squareScreenConfig.screen.width / squareScreenConfig.screen.height) / 2))
          MIN_DOUBLE_TAP_SCALE)
        (maxCommittedScale squareScreenConfig ⟨5000, 2500⟩) :=
  (c6_doubleTap_target_scale squareScreenConfig ⟨5000, 2500⟩ 2 rfl rfl
    (by norm_num) initialState ⟨500, 500⟩ rfl).1

/-- C7: while the image natural dimensions are unknown, the pinch and pan
onChange handlers return the state unchanged (no transform or gesture state is
modified, and no failure occurs). -/
theorem c7_handlers_noop_without_dimensions (cfg : Config)
    (h : cfg.imageDimensions = none) (st : GestureState) (escale : ℚ)
    (translation : Vec2) :
    pinchOnChange cfg st escale = st ∧ panOnChange cfg st translation = st := by
  constructor
  · unfold pinchOnChange
    rw [h]
  · unfold panOnChange
    rw [h]

/-- Witness for C7 at a concrete metadata-less configuration. -/
theorem c7_handlers_noop_without_dimensions_witness :
    pinchOnChange noMetadataConfig initialState 2 = initialState ∧
    panOnChange noMetadataConfig initialState ⟨5, 5⟩ = initialState :=
  c7_handlers_noop_without_dimensions noMetadataConfig rfl initialState 2 ⟨5, 5⟩

/-- C8: every completed single tap performs exactly one onTap invocation,
independent of zoom state, and additionally resets the committed transform to
the identity when the committed scale is not 1. -/
theorem c8_singleTap_spec (st : GestureState) :
    (singleTapOnEnd st).2 = 1 ∧
    (st.committedTransform.scale ≠ 1 →
      (singleTapOnEnd st).1.committedTransform = createTransform) := by
  constructor
  · unfold singleTapOnEnd
    simp only [readTransform]
    by_cases h : st.committedTransform.scale ≠ 1
    · rw [if_pos h]
    · rw [if_neg h]
  · intro h
    unfold singleTapOnEnd
    simp only [readTransform]
    rw [if_pos h]
    rfl

/-- Witness for C8 at a concrete zoomed state. -/
theorem c8_singleTap_spec_witness :
    (singleTapOnEnd zoomedState).2 = 1 ∧
    (singleTapOnEnd zoomedState).1.committedTransform = createTransform :=
  ⟨(c8_singleTap_spec zoomedState).1,
   (c8_singleTap_spec zoomedState).2 (by norm_num [zoomedState, initialState])⟩

/-- C9: the is-zoomed signal of useAnimatedReaction is derived exactly as
(pinch scale not 1, or committed scale not 1), and across any stream of derived
values the reaction invokes onZoom only at changes, so the emitted notification
values never repeat consecutively. -/
theorem c9_zoom_signal_spec :
    (∀ st : GestureState,
      isScaledDerivation st = true ↔
        (st.pinchScale ≠ 1 ∨ st.committedTransform.scale ≠ 1)) ∧
    (∀ signals : List Bool,
      List.Chain' (fun x y => x ≠ y) (reactionEmits none signals)) := by
  constructor
  · intro st
    unfold isScaledDerivation
    simp only [readTransform]
    by_cases h1 : st.pinchScale ≠ 1 <;> by_cases h2 : st.committedTransform.scale ≠ 1 <;>
      simp [h1, h2]
  · intro signals
    exact reactionEmits_chain signals none

/-- C10 counterexample: at scale 0 the scaled dimensions are (0, 0), so the
width/height ratio is not the image aspect (in the source arithmetic 0/0 is NaN,
which also differs from the aspect), refuting the claim for every scale. -/
theorem c10_ratio_counterexample :
    ¬ ((getScaledDimensions ⟨1000, 2000⟩ 2 0).width /
        (getScaledDimensions ⟨1000, 2000⟩ 2 0).height = 2) := by
  norm_num [getScaledDimensions]

/-- C10 (amended): for every positive image aspect and every nonzero scale, on a
screen with positive dimensions, getScaledDimensions returns dimensions whose
width/height ratio is exactly the image aspect, and the result is contain-fitted:
width = scale * SCREEN.width when the image is landscape relative to the screen
(imageAspect > screenAspect), height = scale * SCREEN.height otherwise. At
scale = 0 both dimensions are 0 and the ratio claim fails. -/
theorem c10_scaledDimensions_spec (screen : Screen) (hW : 0 < screen.width)
    (hH : 0 < screen.height) (a s : ℚ) (_ha : 0 < a) (hs : s ≠ 0) :
    (getScaledDimensions screen a s).width / (getScaledDimensions screen a s).height
      = a ∧
    (a > screen.width / screen.height →
      (getScaledDimensions screen a s).width = s * screen.width) ∧
    (¬ a > screen.width / screen.height →
      (getScaledDimensions screen a s).height = s * screen.height) := by
  by_cases h : a > screen.width / screen.height
  · have hw : (getScaledDimensions screen a s).width = s * screen.width := by
      unfold getScaledDimensions
      rw [if_pos h]
    have hh : (getScaledDimensions screen a s).height = s * screen.width / a := by
      unfold getScaledDimensions
      rw [if_pos h]
    refine ⟨?_, fun _ => hw, fun hc => absurd h hc⟩
    rw [hw, hh, div_div_eq_mul_div, mul_comm (s * screen.width) a, mul_div_assoc,
      div_self (mul_ne_zero hs hW.ne'), mul_one]
  · have hw : (getScaledDimensions screen a s).width = s * screen.height * a := by
      unfold getScaledDimensions
      rw [if_neg h]
    have hh : (getScaledDimensions screen a s).height = s * screen.height := by
      unfold getScaledDimensions
      rw [if_neg h]
    refine ⟨?_, fun hc => absurd hc h, fun _ => hh⟩
    rw [hw, hh, mul_comm (s * screen.height) a, mul_div_assoc,
      div_self (mul_ne_zero hs hH.ne'), mul_one]

/-- Witness for C10 (amended) at a concrete screen, aspect and scale. -/
theorem c10_scaledDimensions_spec_witness :
    (getScaledDimensions ⟨1000, 2000⟩ 2 3).width /
        (getScaledDimensions ⟨1000, 2000⟩ 2 3).height = 2 ∧
    ((2 : ℚ) > (1000 : ℚ) / 2000 →
      (getScaledDimensions ⟨1000, 2000⟩ 2 3).width = 3 * 1000) ∧
    (¬ (2 : ℚ) > (1000 : ℚ) / 2000 →
      (getScaledDimensions ⟨1000, 2000⟩ 2 3).height = 3 * 2000) :=
  c10_scaledDimensions_spec ⟨1000, 2000⟩ (by norm_num) (by norm_num) 2 3
    (by norm_num) (by norm_num)
